import Mathlib

/- Verification of the client-side article view-state layer of the Varthanam
frontend: the useArticles hook (frontend/src/hooks/useArticles.ts) together
with the article API types (frontend/src/lib/articlesApi.ts), and the
spec-described overlay reconciler that partners with it.

The React state of the hook is embedded as an explicit record, and each hook
operation as a function on that record.  The asynchronous remote call inside
fetchArticles is split into two phases: the synchronous prefix executed
before the await (fetchStart) and the continuation executed when the promise
settles (fetchResolve), with the values the continuation closed over at
dispatch time carried in a PendingFetch record.  This makes interleavings of
a scope change with an in-flight fetch expressible.
-/

namespace Varthanam

/-- Article record, from the Article interface of articlesApi.ts.
Optional (nullable) fields become Option String. -/
structure Article where
  id : Nat
  feed_id : Nat
  title : String
  url : Option String
  guid : Option String
  summary : Option String
  author : Option String
  published_at : Option String
  created_at : String
deriving DecidableEq, Repr

/-- Paginated list response, from the PaginatedArticles interface of
articlesApi.ts. -/
structure PaginatedArticles where
  items : List Article
  total : Nat
  limit : Nat
  offset : Nat
deriving DecidableEq, Repr

/-- Per-article mutation response, from the ArticleState interface of
articlesApi.ts. -/
structure ArticleState where
  article_id : Nat
  is_read : Bool
  is_saved : Bool
  read_at : Option String
  saved_at : Option String
deriving DecidableEq, Repr

/-- Structured error thrown by the API layer, from the ApiError interface of
articlesApi.ts.  The hook casts an arbitrary thrown value to this shape and
guards the detail field with a JavaScript truthiness test, so detail is
modelled as Option String (none covers an absent field, the empty string is
falsy). -/
structure ApiError where
  detail : Option String
  status : Nat
deriving DecidableEq, Repr

/-- JavaScript a.detail || dflt on a possibly-absent string: an absent or
empty string falls back to the default. -/
def jsOr (s : Option String) (dflt : String) : String :=
  match s with
  | some v => if v = "" then dflt else v
  | none => dflt

/-- FilterType of useArticles.ts: "all" | "unread" | "saved". -/
inductive FilterType where
  | all
  | unread
  | saved
deriving DecidableEq, Repr

/-- The React state held by useArticles: the six useState cells. -/
structure HookState where
  articles : List Article
  total : Nat
  offset : Nat
  isLoading : Bool
  error : Option String
  filter : FilterType
deriving DecidableEq, Repr

/-- The initial values of the six useState cells. -/
def initialState : HookState :=
  { articles := []
    total := 0
    offset := 0
    isLoading := false
    error := none
    filter := FilterType.all }

/-- PAGE_SIZE constant of useArticles.ts. -/
def PAGE_SIZE : Nat := 20

/-- The argument object the hook passes to articlesApi.getByCollection. -/
structure GetArticlesParams where
  collectionId : Nat
  limit : Nat
  offset : Nat
  unreadOnly : Bool
  savedOnly : Bool
deriving DecidableEq, Repr

/-- An in-flight fetch: the dispatched request together with the values the
continuation of fetchArticles closed over at dispatch time (the reset
argument and the newOffset local). -/
structure PendingFetch where
  params : GetArticlesParams
  reset : Bool
  newOffset : Nat
deriving DecidableEq, Repr

/-- Synchronous prefix of fetchArticles (useArticles.ts lines 38-56): set
isLoading true, clear error, compute newOffset from the pre-call offset, on
reset clear the list and zero the offset, then dispatch the request built
from the current filter. -/
def fetchStart (s : HookState) (collectionId : Nat) (reset : Bool) :
    HookState × PendingFetch :=
  let s1 := { s with isLoading := true, error := none }
  let newOffset := if reset then 0 else s.offset
  let s2 := if reset then { s1 with articles := [], offset := 0 } else s1
  (s2,
    { params :=
        { collectionId := collectionId
          limit := PAGE_SIZE
          offset := newOffset
          unreadOnly := decide (s.filter = FilterType.unread)
          savedOnly := decide (s.filter = FilterType.saved) }
      reset := reset
      newOffset := newOffset })

/-- Success continuation of fetchArticles (lines 58-64): on reset replace the
list, otherwise append via the functional setArticles update; set total from
the response and offset to the captured newOffset plus the number of items;
the finally block clears isLoading. -/
def fetchResolveOk (s : HookState) (p : PendingFetch) (data : PaginatedArticles) :
    HookState :=
  let s1 :=
    if p.reset then { s with articles := data.items }
    else { s with articles := s.articles ++ data.items }
  { s1 with
    total := data.total
    offset := p.newOffset + data.items.length
    isLoading := false }

/-- Failure continuation of fetchArticles (lines 65-70): store the normalized
message; the finally block clears isLoading. -/
def fetchResolveErr (s : HookState) (e : ApiError) : HookState :=
  { s with
    error := some (jsOr e.detail "Failed to load articles")
    isLoading := false }

/-- Continuation of fetchArticles applied when the remote call settles. -/
def fetchResolve (s : HookState) (p : PendingFetch)
    (r : Except ApiError PaginatedArticles) : HookState :=
  match r with
  | Except.ok data => fetchResolveOk s p data
  | Except.error e => fetchResolveErr s e

/-- A whole fetchArticles call with no interleaving: the synchronous prefix
followed immediately by the continuation on the remote outcome r.  Returns
the final state and the dispatched request. -/
def fetchArticles (s : HookState) (collectionId : Nat) (reset : Bool)
    (r : Except ApiError PaginatedArticles) : HookState × PendingFetch :=
  let sp := fetchStart s collectionId reset
  (fetchResolve sp.1 sp.2 r, sp.2)

/-- Synchronous prefix of loadMore (lines 75-81): a no-op when a fetch is in
flight or the store believes there are no more pages, otherwise a non-reset
fetchArticles dispatch. -/
def loadMoreStart (s : HookState) (collectionId : Nat) :
    HookState × Option PendingFetch :=
  if s.isLoading ∨ s.articles.length ≥ s.total then (s, none)
  else
    let sp := fetchStart s collectionId false
    (sp.1, some sp.2)

/-- A whole loadMore call with no interleaving. -/
def loadMore (s : HookState) (collectionId : Nat)
    (r : Except ApiError PaginatedArticles) : HookState × Option PendingFetch :=
  match loadMoreStart s collectionId with
  | (s1, none) => (s1, none)
  | (s1, some p) => (fetchResolve s1 p r, some p)

/-- setFilter (lines 83-88): store the new filter, clear the list, zero the
offset and the total.  It performs no remote call. -/
def setFilter (s : HookState) (newFilter : FilterType) : HookState :=
  { s with articles := [], offset := 0, total := 0, filter := newFilter }

/-- clearError (lines 126-128). -/
def clearError (s : HookState) : HookState :=
  { s with error := none }

/-- Outcome of one of the four mutation operations: the state after the call
and the error re-thrown to the caller, if any. -/
structure MutResult where
  state : HookState
  thrown : Option ApiError
deriving DecidableEq, Repr

/-- markRead (lines 90-98): await the remote call; on success change no hook
state; on failure store the normalized message and re-throw. -/
def markRead (s : HookState) (_articleId : Nat)
    (r : Except ApiError ArticleState) : MutResult :=
  match r with
  | Except.ok _ => { state := s, thrown := none }
  | Except.error e =>
    { state := { s with error := some (jsOr e.detail "Failed to mark article as read") }
      thrown := some e }

/-- markUnread (lines 100-108). -/
def markUnread (s : HookState) (_articleId : Nat)
    (r : Except ApiError ArticleState) : MutResult :=
  match r with
  | Except.ok _ => { state := s, thrown := none }
  | Except.error e =>
    { state := { s with error := some (jsOr e.detail "Failed to mark article as unread") }
      thrown := some e }

/-- saveArticle (lines 110-118). -/
def saveArticle (s : HookState) (_articleId : Nat)
    (r : Except ApiError ArticleState) : MutResult :=
  match r with
  | Except.ok _ => { state := s, thrown := none }
  | Except.error e =>
    { state := { s with error := some (jsOr e.detail "Failed to save article") }
      thrown := some e }

/-- unsaveArticle (lines 120-124). -/
def unsaveArticle (s : HookState) (_articleId : Nat)
    (r : Except ApiError ArticleState) : MutResult :=
  match r with
  | Except.ok _ => { state := s, thrown := none }
  | Except.error e =>
    { state := { s with error := some (jsOr e.detail "Failed to unsave article") }
      thrown := some e }

/-- Selector for the four mutation operations. -/
inductive MutOp where
  | markRead
  | markUnread
  | saveArticle
  | unsaveArticle
deriving DecidableEq, Repr

/-- Dispatch to the four mutation functions of the hook. -/
def runMutation (s : HookState) (op : MutOp) (articleId : Nat)
    (r : Except ApiError ArticleState) : MutResult :=
  match op with
  | MutOp.markRead => markRead s articleId r
  | MutOp.markUnread => markUnread s articleId r
  | MutOp.saveArticle => saveArticle s articleId r
  | MutOp.unsaveArticle => unsaveArticle s articleId r

/-- The operation-specific default error message of each mutation. -/
def mutDefaultError : MutOp → String
  | MutOp.markRead => "Failed to mark article as read"
  | MutOp.markUnread => "Failed to mark article as unread"
  | MutOp.saveArticle => "Failed to save article"
  | MutOp.unsaveArticle => "Failed to unsave article"

/-- The object returned by useArticles (lines 130-147): the five state cells
exposed plus the derived hasMore. -/
structure UseArticlesResult where
  articles : List Article
  total : Nat
  isLoading : Bool
  error : Option String
  hasMore : Bool
  filter : FilterType
deriving DecidableEq, Repr

/-- The snapshot useArticles returns on a render of state s; hasMore is
computed as articles.length < total (line 139), not read from a state cell. -/
def getSnapshot (s : HookState) : UseArticlesResult :=
  { articles := s.articles
    total := s.total
    isLoading := s.isLoading
    error := s.error
    hasMore := decide (s.articles.length < s.total)
    filter := s.filter }

/-- Modelled from the spec: a Local Overlay Entry, the per-item record of
locally confirmed read/saved flags held by the dashboard partner logic (the
dashboard component is not among the provided sources). -/
structure OverlayEntry where
  isRead : Bool
  isSaved : Bool
deriving DecidableEq, Repr

/-- Modelled from the spec: the initial overlay flags of an untouched item
(state Unread, Unsaved). -/
def defaultOverlayEntry : OverlayEntry :=
  { isRead := false, isSaved := false }

/-- The two boolean fields an overlay entry carries. -/
inductive OverlayField where
  | isRead
  | isSaved
deriving DecidableEq, Repr

/-- Set the named boolean field of an overlay entry. -/
def setOverlayField (e : OverlayEntry) (f : OverlayField) (v : Bool) : OverlayEntry :=
  match f with
  | OverlayField.isRead => { e with isRead := v }
  | OverlayField.isSaved => { e with isSaved := v }

/-- Read the named boolean field of an overlay entry. -/
def getOverlayField (e : OverlayEntry) (f : OverlayField) : Bool :=
  match f with
  | OverlayField.isRead => e.isRead
  | OverlayField.isSaved => e.isSaved

/-- Look an item identifier up in the overlay map. -/
def lookupOverlay : List (Nat × OverlayEntry) → Nat → Option OverlayEntry
  | [], _ => none
  | (k, e) :: rest, i => if k = i then some e else lookupOverlay rest i

/-- Modelled from the spec: recordLocalMutation upserts an Overlay Entry for
the item, setting the named boolean field; a fresh entry starts from the
untouched defaults. -/
def recordLocalMutation : List (Nat × OverlayEntry) → Nat → OverlayField → Bool →
    List (Nat × OverlayEntry)
  | [], i, f, v => [(i, setOverlayField defaultOverlayEntry f v)]
  | (k, e) :: rest, i, f, v =>
    if k = i then (k, setOverlayField e f v) :: rest
    else (k, e) :: recordLocalMutation rest i f v

/-- Modelled from the spec: the read/saved state the server may supply with a
fetched item, which can lag a just-performed local mutation. -/
structure ServerItemState where
  serverRead : Option Bool
  serverSaved : Option Bool
deriving DecidableEq, Repr

/-- A display item of the snapshot: the raw item plus resolved flags. -/
structure DisplayItem where
  item : Article
  isRead : Bool
  isSaved : Bool
deriving DecidableEq, Repr

/-- Modelled from the spec: reconciliation of a single item.  The flags of an
existing overlay entry take precedence over any server-supplied state for
that item; with no overlay both flags default to false. -/
def reconcileOne (overlays : List (Nat × OverlayEntry))
    (a : Article × ServerItemState) : DisplayItem :=
  match lookupOverlay overlays a.1.id with
  | some e => { item := a.1, isRead := e.isRead, isSaved := e.isSaved }
  | none => { item := a.1, isRead := false, isSaved := false }

/-- Modelled from the spec: the Overlay Reconciler, a pure function applied
itemwise. -/
def reconcile (items : List (Article × ServerItemState))
    (overlays : List (Nat × OverlayEntry)) : List DisplayItem :=
  items.map (reconcileOne overlays)

/-- Modelled from the spec: the View-State Store, the hook state together
with the per-item local-overlay map held by the dashboard partner logic. -/
structure StoreState where
  hook : HookState
  overlays : List (Nat × OverlayEntry)
deriving DecidableEq, Repr

/-- The overlay field each mutation operation sets. -/
def mutField : MutOp → OverlayField
  | MutOp.markRead => OverlayField.isRead
  | MutOp.markUnread => OverlayField.isRead
  | MutOp.saveArticle => OverlayField.isSaved
  | MutOp.unsaveArticle => OverlayField.isSaved

/-- The value each mutation operation sets its overlay field to. -/
def mutValue : MutOp → Bool
  | MutOp.markRead => true
  | MutOp.markUnread => false
  | MutOp.saveArticle => true
  | MutOp.unsaveArticle => false

/-- The flag of a display item that a mutation operation is about. -/
def mutFlagOf (op : MutOp) (d : DisplayItem) : Bool :=
  match op with
  | MutOp.markRead => d.isRead
  | MutOp.markUnread => d.isRead
  | MutOp.saveArticle => d.isSaved
  | MutOp.unsaveArticle => d.isSaved

/-- The observable list of the store: the loaded items, with whatever read/saved
state the server supplied attached by srv, reconciled under the overlays. -/
def storeSnapshot (st : StoreState) (srv : Nat → ServerItemState) :
    List DisplayItem :=
  reconcile (st.hook.articles.map fun a => (a, srv a.id)) st.overlays

/-- The operations of the layer, with the asynchronous fetch split into its
dispatch and resolution phases so interleavings are expressible. -/
inductive Action where
  | fetchStartA (collectionId : Nat) (reset : Bool)
  | fetchResolveA (p : PendingFetch) (r : Except ApiError PaginatedArticles)
  | loadMoreA (collectionId : Nat)
  | setFilterA (f : FilterType)
  | clearErrorA
  | mutateA (op : MutOp) (articleId : Nat) (r : Except ApiError ArticleState)

/-- Result of one step: the new store state, the remote list requests the
step dispatched, and the error it re-threw to the caller, if any. -/
structure StepOut where
  state : StoreState
  dispatched : List PendingFetch
  thrown : Option ApiError
deriving Repr

/-- One step of the layer.  Fetch actions touch only the hook state; a scope
change clears the overlay map (modelled from the spec: the overlay is
scope-relative and is cleared when the active scope changes); a mutation
upserts an overlay entry only on success. -/
def step (st : StoreState) : Action → StepOut
  | Action.fetchStartA cid reset =>
    let sp := fetchStart st.hook cid reset
    { state := { hook := sp.1, overlays := st.overlays }
      dispatched := [sp.2]
      thrown := none }
  | Action.fetchResolveA p r =>
    { state := { hook := fetchResolve st.hook p r, overlays := st.overlays }
      dispatched := []
      thrown := none }
  | Action.loadMoreA cid =>
    match loadMoreStart st.hook cid with
    | (h, none) =>
      { state := { hook := h, overlays := st.overlays }
        dispatched := []
        thrown := none }
    | (h, some p) =>
      { state := { hook := h, overlays := st.overlays }
        dispatched := [p]
        thrown := none }
  | Action.setFilterA f =>
    { state := { hook := setFilter st.hook f, overlays := [] }
      dispatched := []
      thrown := none }
  | Action.clearErrorA =>
    { state := { hook := clearError st.hook, overlays := st.overlays }
      dispatched := []
      thrown := none }
  | Action.mutateA op i r =>
    let m := runMutation st.hook op i r
    let ov :=
      match r with
      | Except.ok _ => recordLocalMutation st.overlays i (mutField op) (mutValue op)
      | Except.error _ => st.overlays
    { state := { hook := m.state, overlays := ov }
      dispatched := []
      thrown := m.thrown }

/-- A concrete article used in concrete evaluations. -/
def art1 : Article :=
  { id := 1
    feed_id := 1
    title := "A"
    url := none
    guid := none
    summary := none
    author := none
    published_at := none
    created_at := "t" }

/-- A second concrete article. -/
def art2 : Article :=
  { id := 2
    feed_id := 1
    title := "B"
    url := none
    guid := none
    summary := none
    author := none
    published_at := none
    created_at := "t" }

theorem fetchStart_isLoading (s : HookState) (cid : Nat) (reset : Bool) :
    (fetchStart s cid reset).1.isLoading = true := by
  cases reset <;> simp [fetchStart]

theorem fetchStart_error (s : HookState) (cid : Nat) (reset : Bool) :
    (fetchStart s cid reset).1.error = none := by
  cases reset <;> simp [fetchStart]

/-- C10: every invocation of fetchArticles sets isLoading to true and resets
error to null in its synchronous prefix, before the remote call is awaited,
so a previously surfaced error message is cleared as soon as a new fetch
begins, whatever the eventual outcome of that fetch. -/
theorem C10_fetch_sets_loading_clears_error (s : HookState) (collectionId : Nat)
    (reset : Bool) :
    (fetchStart s collectionId reset).1.isLoading = true ∧
    (fetchStart s collectionId reset).1.error = none :=
  ⟨fetchStart_isLoading s collectionId reset, fetchStart_error s collectionId reset⟩

/-- C8: in every observable snapshot, hasMore equals the comparison of the
number of loaded items against the server-reported total; it is computed in
the returned object, not read from a state cell. -/
theorem C8_hasMore_derived (s : HookState) :
    (getSnapshot s).hasMore = true ↔
      (getSnapshot s).articles.length < (getSnapshot s).total := by
  simp [getSnapshot]

/-- C7: setFilter replaces the filter and synchronously clears the item list,
the total and the page-window offset, making the derived hasMore false, and
dispatches no fetch. -/
theorem C7_setFilter_resets (st : StoreState) (f : FilterType) :
    (step st (Action.setFilterA f)).dispatched = [] ∧
    (step st (Action.setFilterA f)).state.hook.articles = [] ∧
    (step st (Action.setFilterA f)).state.hook.total = 0 ∧
    (step st (Action.setFilterA f)).state.hook.offset = 0 ∧
    (getSnapshot (step st (Action.setFilterA f)).state.hook).hasMore = false ∧
    (step st (Action.setFilterA f)).state.hook.filter = f := by
  simp [step, setFilter, getSnapshot]

/-- C9: the four mutation operations never modify the articles list, total,
offset, isLoading or filter: on success they change no hook state at all and
throw nothing; on failure they change only the error field, set to the detail
message of the failure or the operation-specific default, and re-throw the
error to the caller. -/
theorem C9_mutations_frame (s : HookState) (op : MutOp) (i : Nat) :
    (∀ resp : ArticleState,
      runMutation s op i (Except.ok resp) = { state := s, thrown := none }) ∧
    (∀ e : ApiError,
      (runMutation s op i (Except.error e)).state.articles = s.articles ∧
      (runMutation s op i (Except.error e)).state.total = s.total ∧
      (runMutation s op i (Except.error e)).state.offset = s.offset ∧
      (runMutation s op i (Except.error e)).state.isLoading = s.isLoading ∧
      (runMutation s op i (Except.error e)).state.filter = s.filter ∧
      (runMutation s op i (Except.error e)).state.error =
        some (jsOr e.detail (mutDefaultError op)) ∧
      (runMutation s op i (Except.error e)).thrown = some e) := by
  constructor
  · intro resp
    cases op <;> rfl
  · intro e
    cases op <;>
      simp [runMutation, markRead, markUnread, saveArticle, unsaveArticle, mutDefaultError]

/-- C2 counterexample: a reset fetch is dispatched for the scope with filter
all (the request has unreadOnly false), setFilter switches the scope to
unread and empties the list, and then the stale fetch resolves: its items
replace the list of the new scope, so the stale result is not discarded at
resolution time. -/
theorem C2_counterexample :
    (fetchStart initialState 1 true).2.params.unreadOnly = false ∧
    (setFilter (fetchStart initialState 1 true).1 FilterType.unread).articles = [] ∧
    (fetchResolve (setFilter (fetchStart initialState 1 true).1 FilterType.unread)
        (fetchStart initialState 1 true).2
        (Except.ok { items := [art1], total := 1, limit := 20, offset := 0 })).filter =
      FilterType.unread ∧
    (fetchResolve (setFilter (fetchStart initialState 1 true).1 FilterType.unread)
        (fetchStart initialState 1 true).2
        (Except.ok { items := [art1], total := 1, limit := 20, offset := 0 })).articles =
      [art1] := by
  decide

/-- C2 amended: the continuation of fetchArticles performs no scope-mismatch
check at resolution time.  A resolving fetch is applied to the current state
regardless of the current filter: a reset result replaces the current list
and a non-reset result is appended to it.  No user-visible error is surfaced
for such a result (the error field is left unchanged on success). -/
theorem C2_amended_stale_fetch_applied (s : HookState) (f : FilterType)
    (p : PendingFetch) (d : PaginatedArticles) :
    (fetchResolve { s with filter := f } p (Except.ok d)).articles =
      (if p.reset then d.items else s.articles ++ d.items) ∧
    (fetchResolve { s with filter := f } p (Except.ok d)).error = s.error := by
  cases hp : p.reset <;> simp [fetchResolve, fetchResolveOk, hp]

/-- A concrete prior state with one loaded article and a nonzero offset. -/
def c3prior : HookState :=
  { articles := [art1]
    total := 1
    offset := 1
    isLoading := false
    error := none
    filter := FilterType.all }

/-- C3 counterexample: a reset fetchArticles call that fails leaves the list
empty and the offset zero, although the state before the call had one loaded
article and offset one; the prior list is not preserved because the reset
branch clears it before the remote call is made. -/
theorem C3_counterexample :
    c3prior.articles = [art1] ∧
    c3prior.offset = 1 ∧
    (fetchArticles c3prior 1 true
        (Except.error { detail := some "boom", status := 500 })).1.articles = [] ∧
    (fetchArticles c3prior 1 true
        (Except.error { detail := some "boom", status := 500 })).1.offset = 0 ∧
    (fetchArticles c3prior 1 true
        (Except.error { detail := some "boom", status := 500 })).1.isLoading = false ∧
    (fetchArticles c3prior 1 true
        (Except.error { detail := some "boom", status := 500 })).1.error = some "boom" := by
  decide

/-- C3 amended: when the remote list request of a fetchArticles call fails,
at resolution isLoading is false, error holds the normalized human-readable
message, and total and the filter are preserved; the item list and the
page-window offset are preserved exactly for a non-reset (load-more) call,
while a reset call has already cleared them to empty and zero in its
synchronous prefix and they remain so. -/
theorem C3_amended_failure_state (s : HookState) (cid : Nat) (reset : Bool)
    (e : ApiError) :
    (fetchArticles s cid reset (Except.error e)).1.isLoading = false ∧
    (fetchArticles s cid reset (Except.error e)).1.error =
      some (jsOr e.detail "Failed to load articles") ∧
    (fetchArticles s cid reset (Except.error e)).1.total = s.total ∧
    (fetchArticles s cid reset (Except.error e)).1.articles =
      (if reset then [] else s.articles) ∧
    (fetchArticles s cid reset (Except.error e)).1.offset =
      (if reset then 0 else s.offset) ∧
    (fetchArticles s cid reset (Except.error e)).1.filter = s.filter := by
  cases reset <;> simp [fetchArticles, fetchStart, fetchResolve, fetchResolveErr]

/-- C4 counterexample: markRead on a remote rejection carrying the detail
string sets the stored error to exactly that string, but it also re-throws
the failure, so the rejection does propagate to the caller. -/
theorem C4_counterexample :
    (markRead initialState 1
        (Except.error { detail := some "Failed to mark article as read", status := 500 })).state.error =
      some "Failed to mark article as read" ∧
    (markRead initialState 1
        (Except.error { detail := some "Failed to mark article as read", status := 500 })).thrown =
      some { detail := some "Failed to mark article as read", status := 500 } := by
  decide

/-- C4 amended: every remote-call failure is caught at the point of the call
and normalized into the single stored error string (the detail message or an
operation-specific default).  fetchArticles swallows the failure, but each of
the four mutation operations re-throws it to the caller after storing the
message; in particular a markRead rejection with detail Failed to mark
article as read makes error exactly that string. -/
theorem C4_amended_error_propagation (s : HookState) (i cid : Nat) (op : MutOp)
    (reset : Bool) (e : ApiError) :
    (runMutation s op i (Except.error e)).state.error =
      some (jsOr e.detail (mutDefaultError op)) ∧
    (runMutation s op i (Except.error e)).thrown = some e ∧
    (fetchArticles s cid reset (Except.error e)).1.error =
      some (jsOr e.detail "Failed to load articles") ∧
    (runMutation s MutOp.markRead i
        (Except.error { detail := some "Failed to mark article as read", status := 500 })).state.error =
      some "Failed to mark article as read" := by
  refine ⟨?_, ?_, ?_, ?_⟩
  · cases op <;>
      simp [runMutation, markRead, markUnread, saveArticle, unsaveArticle, mutDefaultError]
  · cases op <;>
      simp [runMutation, markRead, markUnread, saveArticle, unsaveArticle]
  · cases reset <;> simp [fetchArticles, fetchStart, fetchResolve, fetchResolveErr]
  · simp [runMutation, markRead, jsOr]

/-- C5: loadMore resolves as an immediate no-op, dispatching nothing, when a
fetch is already in flight or when the store believes there are no more
pages; and when the first of two consecutive loadMore calls does dispatch,
the loading flag it asserts makes the second call a no-op, so exactly one
remote call is dispatched across the two. -/
theorem C5_loadMore_guard_dedup (s : HookState) (collectionId : Nat) :
    ((s.isLoading = true ∨ s.articles.length ≥ s.total) →
      loadMoreStart s collectionId = (s, none)) ∧
    (s.isLoading = false → s.articles.length < s.total →
      (loadMoreStart s collectionId).2.isSome = true ∧
      loadMoreStart (loadMoreStart s collectionId).1 collectionId =
        ((loadMoreStart s collectionId).1, none)) := by
  constructor
  · intro h
    rw [loadMoreStart, if_pos]
    rcases h with h | h
    · exact Or.inl h
    · exact Or.inr h
  · intro h1 h2
    have hcond : ¬(s.isLoading = true ∨ s.articles.length ≥ s.total) := by
      rintro (h | h)
      · rw [h1] at h
        exact Bool.false_ne_true h
      · omega
    have hstep : loadMoreStart s collectionId =
        ((fetchStart s collectionId false).1, some (fetchStart s collectionId false).2) := by
      rw [loadMoreStart, if_neg]
      exact hcond
    constructor
    · rw [hstep]
      rfl
    · rw [hstep]
      rw [loadMoreStart, if_pos]
      exact Or.inl (fetchStart_isLoading s collectionId false)

/-- A concrete state from which loadMore does dispatch: not loading, one item
loaded out of two. -/
def loadReadyState : HookState :=
  { articles := [art1]
    total := 2
    offset := 1
    isLoading := false
    error := none
    filter := FilterType.all }

/-- A concrete state in which a fetch is in flight. -/
def loadingState : HookState :=
  { articles := [art1]
    total := 2
    offset := 1
    isLoading := true
    error := none
    filter := FilterType.all }

/-- Witness for C5 at concrete inputs: from a loading state loadMore is a
no-op, and from a ready state the first call dispatches and the second is a
no-op. -/
theorem C5_loadMore_guard_dedup_witness :
    loadMoreStart loadingState 1 = (loadingState, none) ∧
    (loadMoreStart loadReadyState 1).2.isSome = true ∧
    loadMoreStart (loadMoreStart loadReadyState 1).1 1 =
      ((loadMoreStart loadReadyState 1).1, none) := by
  refine ⟨(C5_loadMore_guard_dedup loadingState 1).1 (Or.inl rfl), ?_, ?_⟩
  · exact ((C5_loadMore_guard_dedup loadReadyState 1).2 rfl (by decide)).1
  · exact ((C5_loadMore_guard_dedup loadReadyState 1).2 rfl (by decide)).2

/-- A sequence of whole non-reset fetchArticles calls, each resolved with the
corresponding successful response. -/
def runSeq (s : HookState) (collectionId : Nat)
    (resps : List PaginatedArticles) : HookState :=
  resps.foldl (fun acc d => (fetchArticles acc collectionId false (Except.ok d)).1) s

theorem fetchOk_nonreset_step (s : HookState) (cid : Nat) (d : PaginatedArticles) :
    (fetchArticles s cid false (Except.ok d)).1.offset = s.offset + d.items.length ∧
    (fetchArticles s cid false (Except.ok d)).1.articles = s.articles ++ d.items := by
  simp [fetchArticles, fetchStart, fetchResolve, fetchResolveOk]

theorem runSeq_offset_length (cid : Nat) (resps : List PaginatedArticles) :
    ∀ s : HookState,
      (runSeq s cid resps).offset =
        s.offset + (resps.map fun d => d.items.length).sum ∧
      (runSeq s cid resps).articles.length =
        s.articles.length + (resps.map fun d => d.items.length).sum := by
  induction resps with
  | nil => intro s; simp [runSeq]
  | cons d rest ih =>
    intro s
    have hunfold : runSeq s cid (d :: rest) =
        runSeq (fetchArticles s cid false (Except.ok d)).1 cid rest := by
      simp [runSeq]
    rw [hunfold]
    have hstep := fetchOk_nonreset_step s cid d
    have hrest := ih (fetchArticles s cid false (Except.ok d)).1
    rcases hstep with ⟨ho, ha⟩
    rcases hrest with ⟨ro, ra⟩
    constructor
    · rw [ro, ho]
      simp
      omega
    · rw [ra, ha]
      simp
      omega

theorem sum_const_lengths (k : Nat) :
    ∀ resps : List PaginatedArticles,
      (∀ d ∈ resps, d.items.length = k) →
      (resps.map fun d => d.items.length).sum = resps.length * k := by
  intro resps
  induction resps with
  | nil => intro _; simp
  | cons d rest ih =>
    intro hk
    have hd : d.items.length = k := hk d (List.mem_cons_self d rest)
    have hrest : ∀ x ∈ rest, x.items.length = k := fun x hx =>
      hk x (List.mem_cons_of_mem d hx)
    simp [hd, ih hrest, Nat.succ_mul]
    omega

/-- C6: a successful fetchArticles call advances the page-window offset by
exactly the number of items the server returned, from zero for a reset call
and from the prior offset for a non-reset call; consequently, from a reset
state, after n successful non-reset calls each returning k items the offset
is n times k and the loaded list has n times k items. -/
theorem C6_pagination_monotonicity (s : HookState) (cid k : Nat)
    (resps : List PaginatedArticles)
    (hk : ∀ d ∈ resps, d.items.length = k)
    (h0 : s.offset = 0) (ha : s.articles = []) :
    (∀ (s2 : HookState) (reset : Bool) (d : PaginatedArticles),
      (fetchArticles s2 cid reset (Except.ok d)).1.offset =
        (if reset then 0 else s2.offset) + d.items.length) ∧
    (runSeq s cid resps).offset = resps.length * k ∧
    (runSeq s cid resps).articles.length = resps.length * k := by
  have hsum : (resps.map fun d => d.items.length).sum = resps.length * k :=
    sum_const_lengths k resps hk
  refine ⟨?_, ?_, ?_⟩
  · intro s2 reset d
    cases reset <;> simp [fetchArticles, fetchStart, fetchResolve, fetchResolveOk]
  · rw [(runSeq_offset_length cid resps s).1, h0, hsum]
    omega
  · rw [(runSeq_offset_length cid resps s).2, ha, hsum]
    simp

/-- A concrete one-item page response. -/
def page1 : PaginatedArticles :=
  { items := [art1], total := 2, limit := 20, offset := 0 }

/-- A second concrete one-item page response. -/
def page2 : PaginatedArticles :=
  { items := [art2], total := 2, limit := 20, offset := 1 }

/-- Witness for C6 at concrete inputs: two successful non-reset calls each
returning one item, from the initial state, give offset two and list length
two. -/
theorem C6_pagination_monotonicity_witness :
    (runSeq initialState 1 [page1, page2]).offset = 2 * 1 ∧
    (runSeq initialState 1 [page1, page2]).articles.length = 2 * 1 := by
  have h := C6_pagination_monotonicity initialState 1 1 [page1, page2]
    (by decide) rfl rfl
  exact ⟨h.2.1, h.2.2⟩

theorem getOverlayField_set (e : OverlayEntry) (f : OverlayField) (v : Bool) :
    getOverlayField (setOverlayField e f v) f = v := by
  cases f <;> rfl

theorem lookupOverlay_record (ov : List (Nat × OverlayEntry)) (i : Nat)
    (f : OverlayField) (v : Bool) :
    ∃ e, lookupOverlay (recordLocalMutation ov i f v) i = some e ∧
      getOverlayField e f = v := by
  induction ov with
  | nil =>
    refine ⟨setOverlayField defaultOverlayEntry f v, ?_, getOverlayField_set _ f v⟩
    simp [recordLocalMutation, lookupOverlay]
  | cons kv rest ih =>
    obtain ⟨k, e⟩ := kv
    by_cases hk : k = i
    · subst hk
      refine ⟨setOverlayField e f v, ?_, getOverlayField_set _ f v⟩
      simp [recordLocalMutation, lookupOverlay]
    · obtain ⟨e2, he2, hf2⟩ := ih
      refine ⟨e2, ?_, hf2⟩
      simp [recordLocalMutation, lookupOverlay, hk, he2]

theorem reconcileOne_item (ov : List (Nat × OverlayEntry))
    (p : Article × ServerItemState) : (reconcileOne ov p).item = p.1 := by
  cases h : lookupOverlay ov p.1.id <;> simp [reconcileOne, h]

theorem reconcileOne_of_lookup (ov : List (Nat × OverlayEntry))
    (p : Article × ServerItemState) (e : OverlayEntry)
    (h : lookupOverlay ov p.1.id = some e) :
    reconcileOne ov p = { item := p.1, isRead := e.isRead, isSaved := e.isSaved } := by
  simp [reconcileOne, h]

theorem mutFlagOf_mk (op : MutOp) (a : Article) (e : OverlayEntry) :
    mutFlagOf op { item := a, isRead := e.isRead, isSaved := e.isSaved } =
      getOverlayField e (mutField op) := by
  cases op <;> rfl

/-- C1: a successful mutation call on item i dispatches no fetch, throws
nothing, and leaves the hook state untouched, while the overlay upsert makes
every item of the observable snapshot whose identifier is i carry the mutated
flag, whatever read/saved state the server supplied for it. -/
theorem C1_mutation_overlay_snapshot (st : StoreState) (op : MutOp) (i : Nat)
    (resp : ArticleState) (srv : Nat → ServerItemState) :
    (step st (Action.mutateA op i (Except.ok resp))).dispatched = [] ∧
    (step st (Action.mutateA op i (Except.ok resp))).thrown = none ∧
    (step st (Action.mutateA op i (Except.ok resp))).state.hook = st.hook ∧
    ∀ d ∈ storeSnapshot (step st (Action.mutateA op i (Except.ok resp))).state srv,
      d.item.id = i → mutFlagOf op d = mutValue op := by
  have hhook : runMutation st.hook op i (Except.ok resp) =
      { state := st.hook, thrown := none } := by
    cases op <;> rfl
  have hov : (step st (Action.mutateA op i (Except.ok resp))).state.overlays =
      recordLocalMutation st.overlays i (mutField op) (mutValue op) := rfl
  refine ⟨rfl, ?_, ?_, ?_⟩
  · show (runMutation st.hook op i (Except.ok resp)).thrown = none
    rw [hhook]
  · show (runMutation st.hook op i (Except.ok resp)).state = st.hook
    rw [hhook]
  · intro d hd hid
    obtain ⟨e, he, hef⟩ := lookupOverlay_record st.overlays i (mutField op) (mutValue op)
    rw [storeSnapshot, reconcile, List.mem_map] at hd
    obtain ⟨x, hx, hfx⟩ := hd
    rw [List.mem_map] at hx
    obtain ⟨a, _ha, hax⟩ := hx
    have hitem : d.item = a := by
      rw [← hfx, ← hax]
      exact reconcileOne_item _ _
    have hai : a.id = i := by
      rw [← hitem]
      exact hid
    have hlook :
        lookupOverlay (step st (Action.mutateA op i (Except.ok resp))).state.overlays a.id =
          some e := by
      rw [hov, hai]
      exact he
    have hrec : d = { item := a, isRead := e.isRead, isSaved := e.isSaved } := by
      rw [← hfx, ← hax]
      exact reconcileOne_of_lookup _ _ e hlook
    rw [hrec, mutFlagOf_mk op a e, hef]

/-- A concrete store holding one loaded article and no overlays. -/
def c1store : StoreState :=
  { hook := loadReadyState, overlays := [] }

/-- A concrete successful markRead response. -/
def c1resp : ArticleState :=
  { article_id := 1, is_read := true, is_saved := false, read_at := none, saved_at := none }

/-- A concrete server-state assignment that still reports every item as
unread and unsaved. -/
def c1srv : Nat → ServerItemState :=
  fun _ => { serverRead := some false, serverSaved := some false }

/-- Witness for C1 at concrete inputs: after a successful markRead of item 1
the snapshot entry for article 1 is read, although the server-supplied state
says unread. -/
theorem C1_mutation_overlay_snapshot_witness :
    mutFlagOf MutOp.markRead { item := art1, isRead := true, isSaved := false } = true :=
  (C1_mutation_overlay_snapshot c1store MutOp.markRead 1 c1resp c1srv).2.2.2
    { item := art1, isRead := true, isSaved := false } (by decide) (by decide)

end Varthanam
